import Mathlib

/-!
Shallow embedding of the acoustic model of `src/main.py` (Tube-Resonance).

Python floats are modelled as real numbers. A Python expression that can
raise (`a / b` raises `ZeroDivisionError` when `b == 0`) or that produces a
non-real float (`np.sqrt` of a negative argument yields `NaN`) is modelled
as an `Option ℝ`, `none` standing for the raised exception / `NaN`.
-/

open scoped Classical

/-- Python float division: raises (`none`) exactly when the divisor is zero. -/
noncomputable def pydiv (a b : ℝ) : Option ℝ :=
  if b = 0 then none else some (a / b)

/-- `np.sqrt` on a float: `NaN` (modelled `none`) on negative input. -/
noncomputable def npSqrt (x : ℝ) : Option ℝ :=
  if x < 0 then none else some (Real.sqrt x)

/-- The two values of the `type_tuyau` radio button (src/main.py:33). -/
inductive TypeTube
  | ouvert
  | ferme
deriving DecidableEq

/-- One entry of the `trous` list (src/main.py:52-55): position as a fraction
of the length, diameter in meters. -/
structure Trou where
  position : ℝ
  diametre : ℝ
deriving Inhabited

/-- `vitesse_son = 331.3 * np.sqrt(1 + temperature / 273.15)` (src/main.py:58). -/
noncomputable def vitesse_son (temperature : ℝ) : Option ℝ :=
  (npSqrt (1 + temperature / 273.15)).map (fun s => 331.3 * s)

/-- `calculer_frequence_fondamentale` (src/main.py:61-65). -/
noncomputable def calculer_frequence_fondamentale (v_son L : ℝ) (type_tube : TypeTube) :
    Option ℝ :=
  match type_tube with
  | .ouvert => pydiv v_son (2 * L)
  | .ferme => pydiv v_son (4 * L)

/-- `calculer_harmoniques` (src/main.py:67-71). -/
def calculer_harmoniques (freq_fond : ℝ) (nombre_harmoniques : ℕ)
    (type_tube : TypeTube) : List ℝ :=
  match type_tube with
  | .ouvert => (List.range nombre_harmoniques).map (fun n : ℕ => freq_fond * ((n : ℝ) + 1))
  | .ferme => (List.range nombre_harmoniques).map (fun n : ℕ => freq_fond * (2 * (n : ℝ) + 1))

/-- `sorted(trous, key=lambda t: t["position"])` (src/main.py:78): Python's
sort is stable, so it is modelled by the stable `List.insertionSort`. -/
noncomputable def trier_trous (trous : List Trou) : List Trou :=
  List.insertionSort (fun a b => a.position ≤ b.position) trous

/-- `calculer_frequence_avec_trous` (src/main.py:73-104).  The only places
the Python function can raise are the divisions: `section_trou /
section_tube` inside the multi-hole loop (src/main.py:94, raises when the
pipe cross-section is zero) and the final `v_son / (2*longueur_effective)`
or `v_son / (4*longueur_effective)` (src/main.py:102-104). -/
noncomputable def calculer_frequence_avec_trous (v_son L : ℝ) (type_tube : TypeTube)
    (trous : List Trou) (diametre_tube : ℝ) : Option ℝ :=
  if trous = [] then calculer_frequence_fondamentale v_son L type_tube
  else
    let trous_tries := trier_trous trous
    let position_premier_trou := trous_tries.headI.position * L
    let diametre_premier_trou := trous_tries.headI.diametre
    let correction := 0.3 * diametre_premier_trou
    if 1 < trous.length then
      let section_tube := Real.pi * (diametre_tube / 2) ^ 2
      if section_tube = 0 then none
      else
        let correction_multi := (trous_tries.map (fun trou =>
          Real.pi * (trou.diametre / 2) ^ 2 / section_tube
            * (1 - trou.position) * L * 0.1)).sum
        let longueur_effective := position_premier_trou + correction + correction_multi
        match type_tube with
        | .ouvert => pydiv v_son (2 * longueur_effective)
        | .ferme => pydiv v_son (4 * longueur_effective)
    else
      let longueur_effective := position_premier_trou + correction
      match type_tube with
      | .ouvert => pydiv v_son (2 * longueur_effective)
      | .ferme => pydiv v_son (4 * longueur_effective)

/-- Claim C1: for every speed of sound `v` and every length `L > 0`,
`calculer_frequence_fondamentale` returns `v / (2 * L)` for a pipe open at
both ends and `v / (4 * L)` for a pipe closed at one end. -/
theorem frequence_fondamentale_formule (v L : ℝ) (hL : 0 < L) :
    calculer_frequence_fondamentale v L TypeTube.ouvert = some (v / (2 * L)) ∧
    calculer_frequence_fondamentale v L TypeTube.ferme = some (v / (4 * L)) := by
  have h2 : (2 : ℝ) * L ≠ 0 := by positivity
  have h4 : (4 : ℝ) * L ≠ 0 := by positivity
  constructor <;> simp [calculer_frequence_fondamentale, pydiv, h2, h4]

/-- Witness for C1 at `v = 343.4`, `L = 1`. -/
theorem frequence_fondamentale_formule_temoin :
    (0 : ℝ) < 1 ∧
      (calculer_frequence_fondamentale 343.4 1 TypeTube.ouvert = some (343.4 / (2 * 1)) ∧
       calculer_frequence_fondamentale 343.4 1 TypeTube.ferme = some (343.4 / (4 * 1))) :=
  ⟨by norm_num, frequence_fondamentale_formule 343.4 1 (by norm_num)⟩

/-- Claim C3: `calculer_harmoniques` returns `f * (n+1)` for `n` in
`0..count-1` for an open pipe and `f * (2n+1)` for a closed pipe; with
count 5 this is `[f, 2f, 3f, 4f, 5f]` resp. `[f, 3f, 5f, 7f, 9f]`. -/
theorem harmoniques_formule (f : ℝ) (count : ℕ) (hc : 1 ≤ count) :
    (∀ n < count,
      (calculer_harmoniques f count TypeTube.ouvert).getD n 0 = f * ((n : ℝ) + 1)) ∧
    (∀ n < count,
      (calculer_harmoniques f count TypeTube.ferme).getD n 0 = f * (2 * (n : ℝ) + 1)) ∧
    calculer_harmoniques f 5 TypeTube.ouvert = [f, 2 * f, 3 * f, 4 * f, 5 * f] ∧
    calculer_harmoniques f 5 TypeTube.ferme = [f, 3 * f, 5 * f, 7 * f, 9 * f] := by
  refine ⟨?_, ?_, ?_, ?_⟩
  · intro n hn
    simp only [calculer_harmoniques]
    rw [List.getD_eq_getElem?_getD, List.getElem?_map, List.getElem?_range hn]
    rfl
  · intro n hn
    simp only [calculer_harmoniques]
    rw [List.getD_eq_getElem?_getD, List.getElem?_map, List.getElem?_range hn]
    rfl
  · simp only [calculer_harmoniques]
    norm_num [List.range_succ]
    ring_nf
    try norm_num
  · simp only [calculer_harmoniques]
    norm_num [List.range_succ]
    ring_nf
    try norm_num

/-- Witness for C3 at `f = 171.7`, `count = 5`. -/
theorem harmoniques_formule_temoin :
    (calculer_harmoniques 171.7 5 TypeTube.ouvert).getD 1 0 = 171.7 * (((1 : ℕ) : ℝ) + 1) ∧
    (calculer_harmoniques 171.7 5 TypeTube.ferme).getD 1 0 = 171.7 * (2 * ((1 : ℕ) : ℝ) + 1) :=
  ⟨(harmoniques_formule 171.7 5 (by norm_num)).1 1 (by norm_num),
   (harmoniques_formule 171.7 5 (by norm_num)).2.1 1 (by norm_num)⟩

/-- Claim C9: for `f > 0` and `count ≥ 1`, the harmonic list is strictly
increasing and has exactly `count` entries, for both end conditions. -/
theorem harmoniques_croissantes (f : ℝ) (count : ℕ) (hf : 0 < f) (hc : 1 ≤ count)
    (t : TypeTube) :
    (calculer_harmoniques f count t).length = count ∧
    (calculer_harmoniques f count t).Pairwise (· < ·) := by
  constructor
  · cases t <;> simp only [calculer_harmoniques] <;> rw [List.length_map, List.length_range]
  · cases t <;> simp only [calculer_harmoniques] <;>
      exact List.Pairwise.map _ (fun a b hab => by
        have hab' : (a : ℝ) < b := by exact_mod_cast hab
        nlinarith) (List.pairwise_lt_range count)

/-- Witness for C9 at `f = 171.7`, `count = 5`, open pipe. -/
theorem harmoniques_croissantes_temoin :
    (calculer_harmoniques 171.7 5 TypeTube.ouvert).length = 5 ∧
    (calculer_harmoniques 171.7 5 TypeTube.ouvert).Pairwise (· < ·) :=
  harmoniques_croissantes 171.7 5 (by norm_num) (by norm_num) TypeTube.ouvert

/-- Counterexample for claim C4: at `length = -1 < 0` the function does not
fail; it returns a value (`-343.4 / 2`), so the code never rejects negative
lengths. -/
theorem frequence_fondamentale_longueur_negative :
    (-1 : ℝ) < 0 ∧
      (calculer_frequence_fondamentale 343.4 (-1) TypeTube.ouvert).isSome = true := by
  refine ⟨by norm_num, ?_⟩
  norm_num [calculer_frequence_fondamentale, pydiv]

/-- Claim C4 amended: `calculer_frequence_fondamentale` fails exactly when
`length = 0` (Python `ZeroDivisionError`); for every nonzero length,
negative lengths included, it returns a value. -/
theorem frequence_fondamentale_echec_ssi_zero :
    (∀ (v : ℝ) (t : TypeTube), calculer_frequence_fondamentale v 0 t = none) ∧
    (∀ (v L : ℝ) (t : TypeTube), L ≠ 0 →
      (calculer_frequence_fondamentale v L t).isSome = true) := by
  constructor
  · intro v t
    cases t <;> simp [calculer_frequence_fondamentale, pydiv]
  · intro v L t hL
    cases t <;> simp [calculer_frequence_fondamentale, pydiv, hL]

/-- Witness for the amended C4: fails at `L = 0`, succeeds at `L = -1`. -/
theorem frequence_fondamentale_echec_ssi_zero_temoin :
    calculer_frequence_fondamentale 343.4 0 TypeTube.ouvert = none ∧
      (calculer_frequence_fondamentale 343.4 (-2) TypeTube.ferme).isSome = true :=
  ⟨frequence_fondamentale_echec_ssi_zero.1 343.4 TypeTube.ouvert,
   frequence_fondamentale_echec_ssi_zero.2 343.4 (-2) TypeTube.ferme (by norm_num)⟩

/-- Claim C10: with exactly one hole the result of
`calculer_frequence_avec_trous` does not depend on the pipe diameter: the
cross-section only enters the multi-hole correction, which is skipped. -/
theorem frequence_un_trou_independante_du_diametre (v L : ℝ) (t : TypeTube) (tr : Trou)
    (d1 d2 : ℝ) :
    calculer_frequence_avec_trous v L t [tr] d1 =
      calculer_frequence_avec_trous v L t [tr] d2 := by
  simp [calculer_frequence_avec_trous]

/-- Claim C6: below absolute zero (`1 + t/273.15 < 0`) the speed-of-sound
expression does not produce a real number: `np.sqrt` of the negative
argument yields `NaN`, modelled `none`. -/
theorem vitesse_son_sous_zero_absolu (t : ℝ) (h : 1 + t / 273.15 < 0) :
    vitesse_son t = none := by
  simp [vitesse_son, npSqrt, h]

/-- Witness for C6 at `t = -300` degrees Celsius. -/
theorem vitesse_son_sous_zero_absolu_temoin : vitesse_son (-300) = none :=
  vitesse_son_sous_zero_absolu (-300) (by norm_num)

/-- Counterexample for claim C7: `vitesse_son 20` is about `343.21`, which
is farther than `0.1` from the spec's `343.4`. -/
theorem vitesse_son_vingt_hors_tolerance :
    ∃ r, vitesse_son 20 = some r ∧ 0.1 < |r - 343.4| := by
  refine ⟨331.3 * Real.sqrt (1 + 20 / 273.15), ?_, ?_⟩
  · rw [vitesse_son, npSqrt, if_neg (by norm_num)]
    rfl
  · have hs : Real.sqrt (1 + 20 / 273.15) < 1.03621 := by
      rw [Real.sqrt_lt' (by norm_num)]
      norm_num
    have h2 : 331.3 * Real.sqrt (1 + 20 / 273.15) < 343.3 := by
      nlinarith [Real.sqrt_nonneg (1 + 20 / 273.15)]
    rw [lt_abs]
    right
    linarith

/-- Claim C7 amended: `vitesse_son 20` is approximately `343.4` within a
tolerance of `0.2` (the value is between `343.2` and `343.3`). -/
theorem vitesse_son_vingt_approx :
    ∃ r, vitesse_son 20 = some r ∧ |r - 343.4| < 0.2 := by
  refine ⟨331.3 * Real.sqrt (1 + 20 / 273.15), ?_, ?_⟩
  · rw [vitesse_son, npSqrt, if_neg (by norm_num)]
    rfl
  · have hs : Real.sqrt (1 + 20 / 273.15) < 1.03621 := by
      rw [Real.sqrt_lt' (by norm_num)]
      norm_num
    have hs2 : (1.03592 : ℝ) < Real.sqrt (1 + 20 / 273.15) := by
      rw [Real.lt_sqrt (by norm_num)]
      norm_num
    rw [abs_sub_lt_iff]
    constructor <;> nlinarith

/-- Sorting a one-element hole list is the identity. -/
theorem trier_trous_singleton (tr : Trou) : trier_trous [tr] = [tr] := rfl

/-- With exactly one hole, open pipe: the result is the guarded division by
`2 * (position * L + 0.3 * diametre)`. -/
theorem un_trou_ouvert (v L p d D : ℝ) :
    calculer_frequence_avec_trous v L TypeTube.ouvert [⟨p, d⟩] D =
      pydiv v (2 * (p * L + 0.3 * d)) := by
  simp [calculer_frequence_avec_trous, trier_trous_singleton, List.headI]

/-- With exactly one hole, closed pipe: the result is the guarded division
by `4 * (position * L + 0.3 * diametre)`. -/
theorem un_trou_ferme (v L p d D : ℝ) :
    calculer_frequence_avec_trous v L TypeTube.ferme [⟨p, d⟩] D =
      pydiv v (4 * (p * L + 0.3 * d)) := by
  simp [calculer_frequence_avec_trous, trier_trous_singleton, List.headI]

/-- Claim C2: for a non-empty hole list (and a positive pipe diameter, so
the cross-section divisor is nonzero), `calculer_frequence_avec_trous`
sorts the holes ascending by position and applies the fundamental-frequency
formula to the effective length: first sorted hole position times `L`, plus
`0.3` times its diameter, plus (when more than one hole exists) the area-
ratio correction summed over the sorted holes. -/
theorem frequence_avec_trous_decomposition (v L D : ℝ) (t : TypeTube) (trous : List Trou)
    (h : trous ≠ []) (hD : 0 < D) :
    (trier_trous trous).Sorted (fun a b => a.position ≤ b.position) ∧
    (trier_trous trous).Perm trous ∧
    calculer_frequence_avec_trous v L t trous D =
      calculer_frequence_fondamentale v
        ((trier_trous trous).headI.position * L
          + (0.3 * (trier_trous trous).headI.diametre
            + (if 1 < trous.length then
                ((trier_trous trous).map (fun trou =>
                  Real.pi * (trou.diametre / 2) ^ 2 / (Real.pi * (D / 2) ^ 2)
                    * (1 - trou.position) * L * 0.1)).sum
              else 0))) t := by
  haveI ht : IsTotal Trou (fun a b => a.position ≤ b.position) :=
    ⟨fun a b => le_total a.position b.position⟩
  haveI htr : IsTrans Trou (fun a b => a.position ≤ b.position) :=
    ⟨fun a b c hab hbc => le_trans hab hbc⟩
  refine ⟨List.sorted_insertionSort _ _, List.perm_insertionSort _ _, ?_⟩
  have hsec : Real.pi * (D / 2) ^ 2 ≠ 0 := by positivity
  rw [calculer_frequence_avec_trous, if_neg h]
  by_cases hlen : 1 < trous.length
  · simp only [hlen, if_pos, hsec, if_neg]
    cases t <;>
      · show pydiv v _ = pydiv v _
        congr 1
        ring
  · simp only [hlen, if_neg, if_false]
    cases t <;>
      · show pydiv v _ = pydiv v _
        congr 1
        ring

/-- Witness for C2 on a concrete two-hole pipe. -/
theorem frequence_avec_trous_decomposition_temoin :
    (trier_trous [⟨0.5, 0.01⟩, ⟨0.25, 0.008⟩]).Sorted
      (fun a b => a.position ≤ b.position) ∧
    (trier_trous [⟨0.5, 0.01⟩, ⟨0.25, 0.008⟩]).Perm [⟨0.5, 0.01⟩, ⟨0.25, 0.008⟩] ∧
    calculer_frequence_avec_trous 343.4 1 TypeTube.ouvert
        [⟨0.5, 0.01⟩, ⟨0.25, 0.008⟩] 0.05 =
      calculer_frequence_fondamentale 343.4
        ((trier_trous [⟨0.5, 0.01⟩, ⟨0.25, 0.008⟩]).headI.position * 1
          + (0.3 * (trier_trous [⟨0.5, 0.01⟩, ⟨0.25, 0.008⟩]).headI.diametre
            + (if 1 < ([⟨0.5, 0.01⟩, ⟨0.25, 0.008⟩] : List Trou).length then
                ((trier_trous [⟨0.5, 0.01⟩, ⟨0.25, 0.008⟩]).map (fun trou =>
                  Real.pi * (trou.diametre / 2) ^ 2 / (Real.pi * ((0.05 : ℝ) / 2) ^ 2)
                    * (1 - trou.position) * 1 * 0.1)).sum
              else 0))) TypeTube.ouvert :=
  frequence_avec_trous_decomposition 343.4 1 0.05 TypeTube.ouvert
    [⟨0.5, 0.01⟩, ⟨0.25, 0.008⟩] (by simp) (by norm_num)

/-- Counterexample for claim C5: at `length = -1 ≤ 0` (invalid geometry)
the function does not fail: it returns a value. -/
theorem frequence_avec_trous_geometrie_invalide_sans_echec :
    ((-1 : ℝ) ≤ 0) ∧
      (calculer_frequence_avec_trous 343.4 (-1) TypeTube.ouvert
        [⟨0.5, 0.01⟩] 0.05).isSome = true := by
  refine ⟨by norm_num, ?_⟩
  rw [un_trou_ouvert, pydiv, if_neg (by norm_num)]
  rfl

/-- Claim C5 amended: `calculer_frequence_avec_trous` performs no geometry
validation.  For a single hole it returns a value whenever the effective
length `position * L + 0.3 * diametre` is nonzero, regardless of the signs
of `L` and the pipe diameter and regardless of how the hole diameter
compares to the pipe diameter; it can only fail on a literal division by
zero. -/
theorem frequence_avec_trous_sans_validation (v L D : ℝ) (t : TypeTube) (p d : ℝ)
    (h : p * L + 0.3 * d ≠ 0) :
    (calculer_frequence_avec_trous v L t [⟨p, d⟩] D).isSome = true := by
  cases t
  · rw [un_trou_ouvert, pydiv, if_neg (by intro h2; apply h; linarith)]
    rfl
  · rw [un_trou_ferme, pydiv, if_neg (by intro h2; apply h; linarith)]
    rfl

/-- Witness for the amended C5: negative length, negative pipe diameter and
a hole wider than the pipe still produce a value. -/
theorem frequence_avec_trous_sans_validation_temoin :
    ((0.5 : ℝ) * (-1) + 0.3 * 0.2 ≠ 0) ∧
      (calculer_frequence_avec_trous 343.4 (-1) TypeTube.ferme
        [⟨0.5, 0.2⟩] (-0.05)).isSome = true :=
  ⟨by norm_num,
   frequence_avec_trous_sans_validation 343.4 (-1) (-0.05) TypeTube.ferme 0.5 0.2
     (by norm_num)⟩

/-- Claim C8: for a positive speed of sound, positive length, hole diameter
in `(0, pipeDiameter)` and positions `p1 < p2` in `(0,1)`, moving the
single hole from `p1` to `p2` strictly increases the effective length and
strictly decreases the returned fundamental frequency, for both end
conditions. -/
theorem frequence_avec_trous_monotone_position (v L D d p1 p2 : ℝ) (t : TypeTube)
    (hv : 0 < v) (hL : 0 < L) (hd : 0 < d) (hdD : d < D)
    (hp1 : 0 < p1) (hp2 : p2 < 1) (hlt : p1 < p2) :
    p1 * L + 0.3 * d < p2 * L + 0.3 * d ∧
    ∃ f1 f2,
      calculer_frequence_avec_trous v L t [⟨p1, d⟩] D = some f1 ∧
      calculer_frequence_avec_trous v L t [⟨p2, d⟩] D = some f2 ∧
      f2 < f1 := by
  have he1 : (0 : ℝ) < p1 * L + 0.3 * d := by positivity
  have he2 : p1 * L + 0.3 * d < p2 * L + 0.3 * d := by nlinarith
  have he3 : (0 : ℝ) < p2 * L + 0.3 * d := he1.trans he2
  refine ⟨he2, ?_⟩
  cases t
  · refine ⟨v / (2 * (p1 * L + 0.3 * d)), v / (2 * (p2 * L + 0.3 * d)), ?_, ?_, ?_⟩
    · rw [un_trou_ouvert, pydiv, if_neg (by positivity)]
    · rw [un_trou_ouvert, pydiv, if_neg (by intro hz; nlinarith)]
    · exact div_lt_div_of_pos_left hv (by positivity) (by linarith)
  · refine ⟨v / (4 * (p1 * L + 0.3 * d)), v / (4 * (p2 * L + 0.3 * d)), ?_, ?_, ?_⟩
    · rw [un_trou_ferme, pydiv, if_neg (by positivity)]
    · rw [un_trou_ferme, pydiv, if_neg (by intro hz; nlinarith)]
    · exact div_lt_div_of_pos_left hv (by positivity) (by linarith)

/-- Witness for C8 at `v = 343.4`, `L = 1`, `D = 0.05`, `d = 0.01`,
positions `0.25 < 0.5`, open pipe. -/
theorem frequence_avec_trous_monotone_position_temoin :
    (0.25 : ℝ) * 1 + 0.3 * 0.01 < 0.5 * 1 + 0.3 * 0.01 ∧
    ∃ f1 f2,
      calculer_frequence_avec_trous 343.4 1 TypeTube.ouvert [⟨0.25, 0.01⟩] 0.05 = some f1 ∧
      calculer_frequence_avec_trous 343.4 1 TypeTube.ouvert [⟨0.5, 0.01⟩] 0.05 = some f2 ∧
      f2 < f1 :=
  frequence_avec_trous_monotone_position 343.4 1 0.05 0.01 0.25 0.5 TypeTube.ouvert
    (by norm_num) (by norm_num) (by norm_num) (by norm_num) (by norm_num) (by norm_num)
    (by norm_num)
